import Mathlib

/-!
Verification development for the contacts-management backend
(FastAPI + SQLAlchemy REST API).

The definitions below are a shallow embedding of the Python source:
  - src/database/models.py      (Contact, User ORM models)
  - src/repository/contacts.py  (ContactRepository)
  - src/repository/users.py     (UserRepository)
  - src/services/contacts.py    (ContactService)
  - src/services/users.py       (UserService)
  - src/services/auth_service.py (JWT issue/verify, access guard)
  - src/services/email_service.py (mail sending)

The database is modelled as an explicit state (lists of rows); SQLAlchemy
queries become list operations; exceptions become Except values; wall-clock
time and the application settings become explicit parameters.
-/

/-! ## Calendar arithmetic (Python datetime.date / timedelta) -/

/-- A Python datetime.date value: proleptic Gregorian year, month (1..12),
day (1..31). -/
structure PDate where
  year : Nat
  month : Nat
  day : Nat
deriving DecidableEq, Repr

/-- Gregorian leap-year rule, as used by Python datetime. -/
def isLeap (y : Nat) : Bool :=
  y % 4 == 0 && (y % 100 != 0 || y % 400 == 0)

/-- Number of days in a given month of a given year. -/
def daysInMonth (y m : Nat) : Nat :=
  if m = 2 then (if isLeap y then 29 else 28)
  else if m = 4 ∨ m = 6 ∨ m = 9 ∨ m = 11 then 30
  else 31

/-- The calendar day after the given date. -/
def nextDay (d : PDate) : PDate :=
  if d.day < daysInMonth d.year d.month then { d with day := d.day + 1 }
  else if d.month < 12 then { d with month := d.month + 1, day := 1 }
  else { year := d.year + 1, month := 1, day := 1 }

/-- The calendar day before the given date. -/
def prevDay (d : PDate) : PDate :=
  if 1 < d.day then { d with day := d.day - 1 }
  else if 1 < d.month then
    { d with month := d.month - 1, day := daysInMonth d.year (d.month - 1) }
  else { year := d.year - 1, month := 12, day := 31 }

/-- Python `date + timedelta(days=n)` with a possibly negative n. -/
def addDays (d : PDate) (n : Int) : PDate :=
  if 0 ≤ n then Nat.iterate nextDay n.toNat d
  else Nat.iterate prevDay (-n).toNat d

/-- PostgreSQL date_part('day', d): the day-of-month component.
This is the extraction the birthday query actually performs. -/
def datePartDay (d : PDate) : Nat := d.day

/-- The day-of-year ordinal of a month/day pair (month and day of `d`,
year ignored), computed against a leap reference year so Feb 29 has a
position.  Used only by the spec-side predicate. -/
def monthDayPos (d : PDate) : Nat :=
  (List.range (d.month - 1)).foldl (fun acc k => acc + daysInMonth 2024 (k + 1)) 0
    + d.day

/-! ## JWT claims and tokens (python-jose as used by auth_service.py) -/

/-- A JSON claim value as it appears in a JWT payload: the code only ever
stores strings (sub, password), numbers (exp, iat timestamps) or null. -/
inductive Claim
  | str (s : String)
  | num (n : Int)
  | null
deriving DecidableEq, Repr

/-- A JWT payload: a JSON object, keys unique. -/
abbrev Payload := List (String × Claim)

/-- Lookup of a key in a payload (Python dict indexing / .get). -/
def dictGet (k : String) : Payload → Option Claim
  | [] => none
  | (k', v) :: t => if k' = k then some v else dictGet k t

/-- Python dict update d[k] = v: replaces any existing binding for k. -/
def dictInsert (k : String) (v : Claim) (d : Payload) : Payload :=
  (k, v) :: d.filter (fun p => ¬ p.1 = k)

/-- A signed JWT, kept symbolic: the payload it encodes, the key it was
signed with, and the signing algorithm (jwt.encode in auth_service.py). -/
structure Token where
  payload : Payload
  secret : String
  alg : String
deriving DecidableEq, Repr

/-- Application settings (src/conf/config.py is referenced by the services;
the token functions read JWT_SECRET, JWT_ALGORITHM, JWT_EXPIRATION_SECONDS). -/
structure Settings where
  JWT_SECRET : String
  JWT_ALGORITHM : String
  JWT_EXPIRATION_SECONDS : Int
deriving DecidableEq, Repr

/-- Errors raised by jose.jwt.decode; both are subclasses of JWTError and
are caught alike by `except JWTError`. -/
inductive JoseErr
  | jwtError
  | expiredSignature
deriving DecidableEq, Repr

/-- Whether a payload's exp claim lies strictly in the past at time `now`
(jose treats a token as expired when exp < now; a missing exp disables the
check). -/
def payloadExpired (p : Payload) (now : Int) : Bool :=
  match dictGet "exp" p with
  | some (.num e) => e < now
  | _ => false

/-- jose.jwt.decode(token, key, algorithms=[alg]): signature check (the
signing key and algorithm must match), then expiry check, then the payload
is returned. -/
def jwtDecode (t : Token) (key : String) (algs : List String) (now : Int) :
    Except JoseErr Payload :=
  if t.secret = key ∧ t.alg ∈ algs then
    if payloadExpired t.payload now then .error .expiredSignature
    else .ok t.payload
  else .error .jwtError

/-- create_access_token(data, expires_delta) in src/services/auth_service.py:
copies data, computes expiry (`if expires_delta:` is Python truthiness, so
both None and 0 fall back to settings.JWT_EXPIRATION_SECONDS), inserts the
exp claim and signs with settings.JWT_SECRET / settings.JWT_ALGORITHM. -/
def create_access_token (data : Payload) (expires_delta : Option Int)
    (s : Settings) (now : Int) : Token :=
  let expire : Int :=
    match expires_delta with
    | some d => if d ≠ 0 then now + d else now + s.JWT_EXPIRATION_SECONDS
    | none => now + s.JWT_EXPIRATION_SECONDS
  { payload := dictInsert "exp" (.num expire) data
    secret := s.JWT_SECRET
    alg := s.JWT_ALGORITHM }

/-- create_email_token(data) in src/services/auth_service.py: copies data,
inserts iat = now and exp = now + 7 days, signs with the same
settings.JWT_SECRET / settings.JWT_ALGORITHM. -/
def create_email_token (data : Payload) (s : Settings) (now : Int) : Token :=
  { payload :=
      dictInsert "exp" (.num (now + 7 * 24 * 60 * 60))
        (dictInsert "iat" (.num now) data)
    secret := s.JWT_SECRET
    alg := s.JWT_ALGORITHM }

/-! ## Data model (src/database/models.py) -/

/-- Modelled from the spec: the UserRole enum is imported from
src.database.models by auth_service.py and compared against in
get_current_admin_user, but the models file shipped in the sources does not
define it; spec section 3 gives role ∈ \x7buser, admin\x7d. -/
inductive UserRole
  | user
  | admin
deriving DecidableEq, Repr

/-- The users table row (models.py User).  The role column is referenced by
auth_service.py but absent from the shipped models file; it is modelled from
the spec (see UserRole). -/
structure User where
  id : Nat
  username : String
  email : String
  hashed_password : String
  avatar : Option String
  confirmed : Bool
  role : UserRole
deriving DecidableEq, Repr

/-- The contacts table row (models.py Contact).  Note that the email and
phone_number columns are declared unique=True — a global, table-wide
uniqueness constraint, not a per-owner one. -/
structure Contact where
  id : Nat
  first_name : String
  last_name : String
  email : String
  phone_number : String
  birth_date : PDate
  user_id : Nat
  info : Option String
deriving DecidableEq, Repr

/-- The ContactModel request schema (src/schemas.py). -/
structure ContactModel where
  first_name : String
  last_name : String
  email : String
  phone_number : String
  birth_date : PDate
  info : Option String
deriving DecidableEq, Repr

/-- The UserCreate request schema (src/schemas.py). -/
structure UserCreate where
  username : String
  email : String
  password : String
deriving DecidableEq, Repr

/-- The database state: the two tables plus autoincrement counters for the
primary keys. -/
structure DB where
  contacts : List Contact
  users : List User
  nextContactId : Nat
  nextUserId : Nat
deriving DecidableEq, Repr

/-- Exceptions observable at the request boundary: fastapi.HTTPException
with a status code and detail, Python KeyError from dict indexing, and the
storage-layer errors (sqlalchemy IntegrityError on a violated unique
constraint; PostgreSQL errors such as a negative OFFSET/LIMIT). -/
inductive PyExc
  | http (status : Nat) (detail : String)
  | keyError (key : String)
  | integrityError
  | storageError
deriving DecidableEq, Repr

/-- src/conf/messages.py is not among the shipped sources; the literal in
the older src/services/auth.py for the same 401 is used. -/
def COULD_NOT_VALIDATE_CREDENTIALS : String := "Could not validate credentials"

/-- Detail string of the 403 raised by get_current_admin_user
(messages.PERMISSION_DENIED; the conf module is not among the sources). -/
def PERMISSION_DENIED : String := "Permission denied"

/-- Detail string of the 422 raised by the token readers
(messages.WRONG_TOKEN; the conf module is not among the sources). -/
def WRONG_TOKEN : String := "Wrong token"

/-! ## Contact repository (src/repository/contacts.py) -/

/-- Prefix test on character lists (helper for the SQL contains / LIKE
pattern used by get_contacts). -/
def charsPre : List Char → List Char → Bool
  | [], _ => true
  | _ :: _, [] => false
  | a :: n, b :: h => a = b && charsPre n h

/-- Substring test on character lists. -/
def charsSub (n : List Char) : List Char → Bool
  | [] => charsPre n []
  | b :: h => charsPre n (b :: h) || charsSub n h

/-- SQL column.contains(arg), i.e. col LIKE CONCAT(percent, arg, percent):
the column value contains arg as a substring; the empty argument matches
every row. -/
def strContains (col arg : String) : Bool := charsSub arg.toList col.toList

/-- Row filter of ContactRepository.get_contacts: filter_by(user=user) and
the three .contains filters, ANDed. -/
def contactMatches (first_name last_name email : String) (user : User)
    (c : Contact) : Bool :=
  c.user_id = user.id && strContains c.first_name first_name
    && strContains c.last_name last_name && strContains c.email email

/-- ContactRepository.get_contacts: the filtered rows with
.offset(skip).limit(limit).  PostgreSQL rejects a negative OFFSET or LIMIT
(the repository itself performs no argument validation), which surfaces as
a storage error; LIMIT 0 returns no rows without error. -/
def get_contacts (first_name last_name email : String) (skip limit : Int)
    (user : User) (db : DB) : Except PyExc (List Contact) :=
  if skip < 0 ∨ limit < 0 then .error .storageError
  else
    .ok (((db.contacts.filter
      (contactMatches first_name last_name email user)).drop skip.toNat).take
        limit.toNat)

/-- ContactRepository.get_contact_by_id:
select(Contact).filter_by(id=contact_id, user=user), scalar_one_or_none. -/
def get_contact_by_id (contact_id : Nat) (user : User) (db : DB) :
    Option Contact :=
  db.contacts.find? (fun c => c.id = contact_id && c.user_id = user.id)

/-- The row built by ContactRepository.create_contact:
Contact(**body.model_dump(), user=user), with the autoincrement id the
store assigns at commit. -/
def contactOfModel (body : ContactModel) (user : User) (cid : Nat) : Contact :=
  { id := cid
    first_name := body.first_name
    last_name := body.last_name
    email := body.email
    phone_number := body.phone_number
    birth_date := body.birth_date
    user_id := user.id
    info := body.info }

/-- ContactRepository.create_contact: add + commit.  The commit enforces
the unique=True constraints on Contact.email and Contact.phone_number,
which are table-wide (across all owners); a violation raises
IntegrityError and nothing is stored. -/
def repo_create_contact (body : ContactModel) (user : User) (db : DB) :
    Except PyExc (Contact × DB) :=
  if db.contacts.any
      (fun c => c.email = body.email || c.phone_number = body.phone_number)
  then .error .integrityError
  else
    let c := contactOfModel body user db.nextContactId
    .ok (c, { db with contacts := db.contacts ++ [c]
                      nextContactId := db.nextContactId + 1 })

/-- The setattr loop of ContactRepository.update_contact applied to a
fetched row: every ContactModel field overwrites the row's field. -/
def applyModel (body : ContactModel) (c : Contact) : Contact :=
  { c with first_name := body.first_name
           last_name := body.last_name
           email := body.email
           phone_number := body.phone_number
           birth_date := body.birth_date
           info := body.info }

/-- ContactRepository.update_contact: fetch via get_contact_by_id (returns
None untouched when absent), setattr the fields, commit.  The UPDATE hits
the row with the fetched primary key; the commit re-checks the table-wide
unique constraints against all other rows. -/
def repo_update_contact (contact_id : Nat) (body : ContactModel)
    (user : User) (db : DB) : Except PyExc (Option Contact × DB) :=
  match get_contact_by_id contact_id user db with
  | none => .ok (none, db)
  | some c =>
    if db.contacts.any (fun c0 => ¬ c0.id = c.id &&
        (c0.email = body.email || c0.phone_number = body.phone_number))
    then .error .integrityError
    else
      let c' := applyModel body c
      .ok (some c',
        { db with contacts :=
            db.contacts.map (fun c0 => if c0.id = c.id then c' else c0) })

/-- ContactRepository.remove_contact: fetch via get_contact_by_id, then
db.delete(contact) + commit — a DELETE of the row with that primary key. -/
def repo_remove_contact (contact_id : Nat) (user : User) (db : DB) :
    Option Contact × DB :=
  match get_contact_by_id contact_id user db with
  | none => (none, db)
  | some c =>
    (some c,
     { db with contacts := db.contacts.filter (fun c0 => ¬ c0.id = c.id) })

/-- ContactRepository.is_contact_exists: filter_by(user=user) and
(email == email) | (phone_number == phone_number); true iff some row
matches.  The check is scoped to the calling owner. -/
def is_contact_exists (email phone_number : String) (user : User) (db : DB) :
    Bool :=
  db.contacts.any (fun c => c.user_id = user.id &&
    (c.email = email || c.phone_number = phone_number))

/-- The WHERE clause of ContactRepository.get_upcoming_birthdays, verbatim:
date_part('day', birth_date) BETWEEN date_part('day', today) AND
date_part('day', end_date), OR (date_part('day', end_date) <
date_part('day', today) AND (day >= today's day OR day <= end_date's day)).
PostgreSQL date_part('day', ...) extracts the day of month. -/
def birthdayRowQualifies (today end_date : PDate) (c : Contact) : Bool :=
  let bd := datePartDay c.birth_date
  let t := datePartDay today
  let e := datePartDay end_date
  (decide (t ≤ bd) && decide (bd ≤ e))
    || (decide (e < t) && (decide (bd ≥ t) || decide (bd ≤ e)))

/-- Insertion into a list sorted ascending by day-of-month of the birth
date (the ORDER BY key of get_upcoming_birthdays). -/
def insertByDay (c : Contact) : List Contact → List Contact
  | [] => [c]
  | d :: t =>
    if datePartDay c.birth_date ≤ datePartDay d.birth_date then c :: d :: t
    else d :: insertByDay c t

/-- Sort by day-of-month of the birth date, ascending (the ORDER BY of
get_upcoming_birthdays; ties keep no guaranteed order in SQL, insertion
order here). -/
def sortByDay : List Contact → List Contact
  | [] => []
  | c :: t => insertByDay c (sortByDay t)

/-- ContactRepository.get_upcoming_birthdays: end_date = today +
timedelta(days=days); rows of the calling owner passing the
date_part('day') window test, ordered by day-of-month ascending.  No
argument validation is performed. -/
def get_upcoming_birthdays (days : Int) (user : User) (db : DB)
    (today : PDate) : Except PyExc (List Contact) :=
  let end_date := addDays today days
  .ok (sortByDay (db.contacts.filter
    (fun c => c.user_id = user.id && birthdayRowQualifies today end_date c)))

/-- The qualifying predicate as worded by the spec (section 4.5): the
birth date's month/day day-of-year position must lie in the inclusive
window from today to end_date, with the wrap-around case when end_date's
day-of-year position is below today's.  This definition follows the spec's
words and exists only to be compared with birthdayRowQualifies. -/
def specBirthdayQualifies (today end_date : PDate) (c : Contact) : Bool :=
  let bd := monthDayPos c.birth_date
  let t := monthDayPos today
  let e := monthDayPos end_date
  if e < t then decide (bd ≥ t) || decide (bd ≤ e)
  else decide (t ≤ bd) && decide (bd ≤ e)

/-! ## Contact service (src/services/contacts.py) -/

/-- ContactService.create_contact: the per-owner is_contact_exists check
first (raising a 400 with the duplicate detail), then the repository
create.  The service performs no other validation. -/
def service_create_contact (body : ContactModel) (user : User) (db : DB) :
    Except PyExc (Contact × DB) :=
  if is_contact_exists body.email body.phone_number user db then
    .error (.http 400
      ("Contact with '" ++ body.email ++ "' email or '" ++ body.phone_number
        ++ "' phone number already exists."))
  else repo_create_contact body user db

/-- ContactService.get_upcoming_birthdays: a bare delegation to the
repository (no argument validation). -/
def service_get_upcoming_birthdays (days : Int) (user : User) (db : DB)
    (today : PDate) : Except PyExc (List Contact) :=
  get_upcoming_birthdays days user db today

/-! ## User repository and service (src/repository/users.py,
src/services/users.py) -/

/-- The row built by UserRepository.create_user:
User(**body.model_dump(exclude=password), hashed_password=body.password,
avatar=avatar).  The password field is stored verbatim into
hashed_password; no hashing happens in this path.  confirmed defaults to
False; the role column is spec-modelled (default role: user). -/
def userOfCreate (body : UserCreate) (avatar : Option String) (uid : Nat) :
    User :=
  { id := uid
    username := body.username
    email := body.email
    hashed_password := body.password
    avatar := avatar
    confirmed := false
    role := .user }

/-- UserRepository.create_user: add + commit; the commit enforces the
unique constraints on users.username and users.email. -/
def repo_create_user (body : UserCreate) (avatar : Option String) (db : DB) :
    Except PyExc (User × DB) :=
  if db.users.any (fun u => u.username = body.username || u.email = body.email)
  then .error .integrityError
  else
    let u := userOfCreate body avatar db.nextUserId
    .ok (u, { db with users := db.users ++ [u]
                      nextUserId := db.nextUserId + 1 })

/-- UserRepository.get_user_by_username:
select(User).filter_by(username=username), scalar_one_or_none. -/
def get_user_by_username (username : String) (db : DB) : Option User :=
  db.users.find? (fun u => u.username = username)

/-- Outcome of the Gravatar lookup in UserService.create_user: either a
URL or some raised exception (carried as its message). -/
abbrev GravatarResult := Except String String

/-- UserService.create_user: avatar = None; try avatar = g.get_image()
except Exception: print(e) — every avatar-resolution failure is swallowed
and the avatar stays None; then the repository create runs either way. -/
def service_create_user (g : GravatarResult) (body : UserCreate) (db : DB) :
    Except PyExc (User × DB) :=
  let avatar : Option String :=
    match g with
    | .ok url => some url
    | .error _ => none
  repo_create_user body avatar db

/-! ## Access guard and token readers (src/services/auth_service.py) -/

/-- get_user_from_db (the aiocache-cached username lookup in front of
UserService.get_user_by_username); on a cache miss it is exactly the
repository lookup, which is the behavior modelled here. -/
def get_user_from_db (username : String) (db : DB) : Option User :=
  get_user_by_username username db

/-- Username comparison of the SQL filter when the sub claim is bound to
the query parameter: only a string claim equal to the username matches. -/
def claimMatchesUsername (v : Claim) (u : User) : Bool :=
  v = Claim.str u.username

/-- get_current_user in src/services/auth_service.py: jwt.decode inside
try/except JWTError (any decode failure becomes the 401
credentials_exception); then payload["sub"] — a Python dict indexing that
raises an uncaught KeyError when the key is absent; the explicit
`if username is None` check re-raises the 401 (an HTTPException escapes
the except JWTError clause); then the user lookup, None becoming the same
401. -/
def get_current_user (token : Token) (db : DB) (s : Settings) (now : Int) :
    Except PyExc User :=
  match jwtDecode token s.JWT_SECRET [s.JWT_ALGORITHM] now with
  | .error _ => .error (.http 401 COULD_NOT_VALIDATE_CREDENTIALS)
  | .ok payload =>
    match dictGet "sub" payload with
    | none => .error (.keyError "sub")
    | some v =>
      if v = Claim.null then .error (.http 401 COULD_NOT_VALIDATE_CREDENTIALS)
      else
        match db.users.find? (claimMatchesUsername v) with
        | none => .error (.http 401 COULD_NOT_VALIDATE_CREDENTIALS)
        | some u => .ok u

/-- get_current_admin_user: raises a 403 when current_user.role is not
UserRole.ADMIN, otherwise returns the user unchanged. -/
def get_current_admin_user (current_user : User) : Except PyExc User :=
  if current_user.role ≠ UserRole.admin then
    .error (.http 403 PERMISSION_DENIED)
  else .ok current_user

/-- get_email_from_token: jwt.decode with the same secret and algorithm
inside try/except JWTError (decode failures become a 422); then
payload["sub"] is returned (an absent key raises an uncaught KeyError). -/
def get_email_from_token (token : Token) (s : Settings) (now : Int) :
    Except PyExc Claim :=
  match jwtDecode token s.JWT_SECRET [s.JWT_ALGORITHM] now with
  | .error _ => .error (.http 422 WRONG_TOKEN)
  | .ok payload =>
    match dictGet "sub" payload with
    | none => .error (.keyError "sub")
    | some v => .ok v

/-- get_password_from_token: identical to get_email_from_token but reads
payload["password"]. -/
def get_password_from_token (token : Token) (s : Settings) (now : Int) :
    Except PyExc Claim :=
  match jwtDecode token s.JWT_SECRET [s.JWT_ALGORITHM] now with
  | .error _ => .error (.http 422 WRONG_TOKEN)
  | .ok payload =>
    match dictGet "password" payload with
    | none => .error (.keyError "password")
    | some v => .ok v

/-! ## Mail sending (src/services/email_service.py) -/

/-- A failure of the mail path: fastapi_mail.errors.ConnectionErrors is
the only class the except clauses name; anything else raised while
building or sending the message is a distinct exception. -/
inductive MailErr
  | connectionErrors
  | other (msg : String)
deriving DecidableEq, Repr

/-- send_confirm_email: the whole body sits in
try ... except ConnectionErrors as err: print(err).  The parameter is the
outcome of the body (building and sending the message); only
ConnectionErrors is swallowed, every other exception propagates. -/
def send_confirm_email (sendOutcome : Except MailErr Unit) :
    Except MailErr Unit :=
  match sendOutcome with
  | .ok () => .ok ()
  | .error .connectionErrors => .ok ()
  | .error e => .error e

/-- send_reset_password_email: same try/except ConnectionErrors shape as
send_confirm_email. -/
def send_reset_password_email (sendOutcome : Except MailErr Unit) :
    Except MailErr Unit :=
  match sendOutcome with
  | .ok () => .ok ()
  | .error .connectionErrors => .ok ()
  | .error e => .error e

/-! ## Generic helpers -/

/-- Whether an Except value is a success (used to state that an operation
completes without raising). -/
def exceptOk {ε α : Type} : Except ε α → Bool
  | .ok _ => true
  | .error _ => false

/-! ## Concrete fixtures used by counterexamples and witnesses -/

/-- A concrete settings value (the conf module reads these from the
environment; the claims are independent of the concrete values). -/
def sTest : Settings :=
  { JWT_SECRET := "secret", JWT_ALGORITHM := "HS256"
    JWT_EXPIRATION_SECONDS := 900 }

/-- A registered non-admin user. -/
def aliceU : User :=
  { id := 1, username := "alice", email := "alice@example.com"
    hashed_password := "hpw1", avatar := none, confirmed := true
    role := .user }

/-- A registered admin user. -/
def bobAdmin : User :=
  { id := 2, username := "bob", email := "bob@example.com"
    hashed_password := "hpw2", avatar := none, confirmed := true
    role := .admin }

/-- Contact of aliceU born January 2. -/
def cJan2 : Contact :=
  { id := 10, first_name := "Ann", last_name := "Lee", email := "ann@x.com"
    phone_number := "+101", birth_date := ⟨1995, 1, 2⟩, user_id := 1
    info := none }

/-- Contact of aliceU born June 15. -/
def cJun15 : Contact :=
  { id := 11, first_name := "Ben", last_name := "Kim", email := "ben@x.com"
    phone_number := "+102", birth_date := ⟨1980, 6, 15⟩, user_id := 1
    info := none }

/-- Contact of aliceU born March 30. -/
def cMar30 : Contact :=
  { id := 12, first_name := "Cal", last_name := "Roe", email := "cal@x.com"
    phone_number := "+103", birth_date := ⟨1990, 3, 30⟩, user_id := 1
    info := none }

/-- Database for the birthday-window scenarios. -/
def dbBday : DB :=
  { contacts := [cJan2, cJun15, cMar30], users := [aliceU]
    nextContactId := 13, nextUserId := 3 }

/-- Contact of aliceU whose email is then reused by another owner. -/
def cShared : Contact :=
  { id := 20, first_name := "Dot", last_name := "Fox"
    email := "shared@x.com", phone_number := "+100"
    birth_date := ⟨1991, 2, 3⟩, user_id := 1, info := none }

/-- Database holding cShared and both users. -/
def dbShared : DB :=
  { contacts := [cShared], users := [aliceU, bobAdmin]
    nextContactId := 21, nextUserId := 3 }

/-- A request body reusing cShared's email with a fresh phone number. -/
def bodyShared : ContactModel :=
  { first_name := "Eve", last_name := "Poe", email := "shared@x.com"
    phone_number := "+200", birth_date := ⟨1993, 4, 5⟩, info := none }

/-- A token whose payload has no sub claim at all. -/
def tokNoSub : Token :=
  { payload := [("foo", .str "bar")], secret := "secret", alg := "HS256" }

/-- A token whose payload carries sub = null. -/
def tokNullSub : Token :=
  { payload := [("sub", .null)], secret := "secret", alg := "HS256" }

/-- A contact of aliceU in the two-owner database. -/
def cAlice1 : Contact :=
  { id := 30, first_name := "Al", last_name := "One", email := "al1@x.com"
    phone_number := "+301", birth_date := ⟨1990, 7, 8⟩, user_id := 1
    info := none }

/-- A contact of bobAdmin in the two-owner database. -/
def cBob1 : Contact :=
  { id := 31, first_name := "Bo", last_name := "Two", email := "bo1@x.com"
    phone_number := "+302", birth_date := ⟨1985, 11, 12⟩, user_id := 2
    info := none }

/-- Two owners with one contact each, overlapping nothing. -/
def dbTwo : DB :=
  { contacts := [cAlice1, cBob1], users := [aliceU, bobAdmin]
    nextContactId := 32, nextUserId := 3 }

/-- A fresh request body colliding with nobody. -/
def bodyNew : ContactModel :=
  { first_name := "Ned", last_name := "New", email := "new@x.com"
    phone_number := "+999", birth_date := ⟨1992, 9, 10⟩, info := none }

/-- Truth of a predicate on an optional value (vacuously true on none). -/
def optionAll {α : Type} (p : α → Bool) : Option α → Bool
  | none => true
  | some a => p a

/-- The contact repo_create_contact builds for bodyNew in dbTwo. -/
def c3W : Contact := contactOfModel bodyNew aliceU 32

/-- The database state after that create. -/
def db3W : DB :=
  { contacts := [cAlice1, cBob1, c3W], users := [aliceU, bobAdmin]
    nextContactId := 33, nextUserId := 3 }

/-- The result of updating contact 30 with bodyNew in dbTwo. -/
def res4W : Option Contact := some (applyModel bodyNew cAlice1)

/-- The database state after that update. -/
def db4W : DB :=
  { contacts := [applyModel bodyNew cAlice1, cBob1], users := [aliceU, bobAdmin]
    nextContactId := 32, nextUserId := 3 }

/-- A registration body colliding with no existing username or email. -/
def bodyCarol : UserCreate :=
  { username := "carol", email := "carol@example.com", password := "plain-pw" }

deriving instance DecidableEq for Except

/-! ## C1: the birthday window compares day-of-month, not month/day -/

/-- C1: with today = 2024-12-28 and days = 7 the query does include the
Jan 2 contact and exclude the Jun 15 contact, but it also returns the
contact born March 30 — date_part('day', ...) extracts the day of month
only, so 30 ≥ 28 puts March 30 inside the December→January wrap window,
while the month/day (day-of-year) comparison of the claim excludes it.
The last three conjuncts evaluate the spec-worded predicate at the same
window: it accepts Jan 2, rejects Jun 15 and rejects Mar 30. -/
theorem upcoming_birthdays_day_of_month_bug :
    get_upcoming_birthdays 7 aliceU dbBday ⟨2024, 12, 28⟩ = .ok [cJan2, cMar30]
  ∧ specBirthdayQualifies ⟨2024, 12, 28⟩ (addDays ⟨2024, 12, 28⟩ 7) cJan2 = true
  ∧ specBirthdayQualifies ⟨2024, 12, 28⟩ (addDays ⟨2024, 12, 28⟩ 7) cJun15 = false
  ∧ specBirthdayQualifies ⟨2024, 12, 28⟩ (addDays ⟨2024, 12, 28⟩ 7) cMar30 = false := by
  decide

/-! ## C7: the admin gate -/

/-- C7: get_current_admin_user fails with the 403 Forbidden error on every
authenticated principal whose role is not admin — never with the 401 — and
returns an admin principal unchanged. -/
theorem admin_gate_forbidden_or_pass (u : User) :
    (u.role ≠ UserRole.admin →
      get_current_admin_user u = .error (.http 403 PERMISSION_DENIED))
  ∧ (u.role = UserRole.admin → get_current_admin_user u = .ok u) := by
  constructor
  · intro h
    simp [get_current_admin_user, h]
  · intro h
    simp [get_current_admin_user, h]

/-- Witness for C7: aliceU (role user) is rejected with the 403, bobAdmin
passes through unchanged. -/
theorem admin_gate_forbidden_or_pass_witness :
    get_current_admin_user aliceU = .error (.http 403 PERMISSION_DENIED)
  ∧ get_current_admin_user bobAdmin = .ok bobAdmin :=
  ⟨(admin_gate_forbidden_or_pass aliceU).1 (by decide),
   (admin_gate_forbidden_or_pass bobAdmin).2 (by decide)⟩

/-! ## C3: token round trip -/

/-- Counterexample for C3: decoding the session token issued for the
claims [sub = alice] does not return those claims — the issuer inserted
an exp claim, so the decoded payload differs from the issued claims at
the key exp. -/
theorem token_roundtrip_counterexample :
    jwtDecode (create_access_token [("sub", .str "alice")] none sTest 0)
        sTest.JWT_SECRET [sTest.JWT_ALGORITHM] 10
      = .ok [("exp", .num 900), ("sub", .str "alice")]
  ∧ dictGet "exp" [("exp", Claim.num 900), ("sub", Claim.str "alice")]
      ≠ dictGet "exp" [("sub", Claim.str "alice")] := by
  decide

/-! ## C4: no InvalidArgument validation on the query operations -/

/-- Counterexample for C4: called with days = -1 the birthday query does
not fail at all — the wrap branch of the day-of-month window is vacuously
true, so every contact of the owner is returned; and called with
limit = 0 the search returns an empty page without any error. -/
theorem query_validation_counterexample :
    get_upcoming_birthdays (-1) aliceU dbBday ⟨2024, 6, 15⟩
      = .ok [cJan2, cJun15, cMar30]
  ∧ get_contacts "" "" "" 0 0 aliceU dbBday = .ok [] := by
  decide

/-! ## C5: contact uniqueness -/

/-- Counterexample for C5: bobAdmin creates a contact with the email
already used by aliceU's contact; the per-owner service check passes, but
the insert violates the table-wide unique constraint on Contact.email and
fails with IntegrityError instead of succeeding. -/
theorem cross_owner_create_counterexample :
    service_create_contact bodyShared bobAdmin dbShared
      = .error .integrityError := by
  decide

/-! ## C6: missing or null sub claim -/

/-- Counterexample for C6: a validly signed, unexpired token whose payload
has no sub field makes get_current_user raise an uncaught KeyError — a
different kind of failure than the 401 credentials rejection the claim
requires. -/
theorem missing_sub_counterexample :
    get_current_user tokNoSub dbShared sTest 0 = .error (.keyError "sub")
  ∧ PyExc.keyError "sub" ≠ PyExc.http 401 COULD_NOT_VALIDATE_CREDENTIALS := by
  decide

/-! ## C8: mail failure suppression -/

/-- Counterexample for C8: a failure of the mail path that is not a
fastapi_mail ConnectionErrors (for example a template error) propagates
out of both send functions instead of being suppressed. -/
theorem mail_error_propagates_counterexample :
    send_confirm_email (.error (.other "TemplateNotFound"))
      = .error (.other "TemplateNotFound")
  ∧ send_reset_password_email (.error (.other "TemplateNotFound"))
      = .error (.other "TemplateNotFound") := by
  decide

/-! ## Dictionary lemmas -/

/-- Removing the bindings of another key does not change a lookup. -/
theorem dictGet_filter_ne (k k' : String) (h : ¬ k' = k) (d : Payload) :
    dictGet k (d.filter (fun p => ¬ p.1 = k')) = dictGet k d := by
  induction d with
  | nil => rfl
  | cons p t ih =>
    obtain ⟨k0, v0⟩ := p
    rw [List.filter_cons]
    by_cases h0 : k0 = k'
    · rw [if_neg (by simp [h0])]
      rw [ih]
      show dictGet k t = dictGet k ((k0, v0) :: t)
      simp only [dictGet]
      rw [if_neg (fun hh => h (h0.symm.trans hh))]
    · rw [if_pos (by simp [h0])]
      simp only [dictGet]
      rw [ih]

/-- Lookup after a dict update. -/
theorem dictGet_dictInsert (k k' : String) (v : Claim) (d : Payload) :
    dictGet k (dictInsert k' v d) = if k' = k then some v else dictGet k d := by
  simp only [dictInsert, dictGet]
  by_cases h : k' = k
  · rw [if_pos h, if_pos h]
  · rw [if_neg h, if_neg h, dictGet_filter_ne k k' h d]

/-- The session token issued with the default expiry, written out. -/
theorem create_access_token_none_eq (data : Payload) (s : Settings)
    (now : Int) :
    create_access_token data none s now
      = ⟨dictInsert "exp" (.num (now + s.JWT_EXPIRATION_SECONDS)) data,
         s.JWT_SECRET, s.JWT_ALGORITHM⟩ := rfl

/-- The email token, written out. -/
theorem create_email_token_eq (data : Payload) (s : Settings) (now : Int) :
    create_email_token data s now
      = ⟨dictInsert "exp" (.num (now + 7 * 24 * 60 * 60))
           (dictInsert "iat" (.num now) data),
         s.JWT_SECRET, s.JWT_ALGORITHM⟩ := rfl

/-- A payload whose inserted exp claim has not passed is not expired. -/
theorem payloadExpired_insert_exp (e now : Int) (data : Payload)
    (h : now ≤ e) :
    payloadExpired (dictInsert "exp" (.num e) data) now = false := by
  have hg : dictGet "exp" (dictInsert "exp" (Claim.num e) data)
      = some (Claim.num e) := by
    rw [dictGet_dictInsert]
    exact if_pos rfl
  simp only [payloadExpired, hg]
  exact decide_eq_false (not_lt.mpr h)

/-- Decoding with the signing key and algorithm of an unexpired token
returns its payload. -/
theorem jwtDecode_mk_ok (p : Payload) (sec alg : String) (now : Int)
    (hexp : payloadExpired p now = false) :
    jwtDecode ⟨p, sec, alg⟩ sec [alg] now = .ok p := by
  simp [jwtDecode, hexp]

/-! ## C3 amended: round trip modulo the issuer-added fields -/

/-- C3 (amended): before expiry and under the issuing secret, decoding an
issued token returns exactly the payload the token was signed with — the
caller's claims plus the issuer-inserted exp (and, for email tokens, iat);
every claim at a key other than exp/iat reads back its issued value, and
the two token readers recover the issued sub and password claims. -/
theorem token_roundtrip_modulo_issuer_fields
    (data : Payload) (s : Settings) (now now' : Int) (k : String)
    (em pw : Claim)
    (hk : ¬ k = "exp") (hki : ¬ k = "iat")
    (hsession : now' ≤ now + s.JWT_EXPIRATION_SECONDS)
    (hemail : now' ≤ now + 7 * 24 * 60 * 60)
    (hsub : dictGet "sub" data = some em)
    (hpw : dictGet "password" data = some pw) :
    jwtDecode (create_access_token data none s now) s.JWT_SECRET
        [s.JWT_ALGORITHM] now'
      = .ok (create_access_token data none s now).payload
  ∧ dictGet k (create_access_token data none s now).payload = dictGet k data
  ∧ jwtDecode (create_email_token data s now) s.JWT_SECRET
        [s.JWT_ALGORITHM] now'
      = .ok (create_email_token data s now).payload
  ∧ dictGet k (create_email_token data s now).payload = dictGet k data
  ∧ get_email_from_token (create_email_token data s now) s now' = .ok em
  ∧ get_password_from_token (create_access_token data none s now) s now'
      = .ok pw := by
  have hk' : ¬ "exp" = k := fun hh => hk hh.symm
  have hki' : ¬ "iat" = k := fun hh => hki hh.symm
  have hexpS := payloadExpired_insert_exp (now + s.JWT_EXPIRATION_SECONDS)
    now' data hsession
  have hexpE := payloadExpired_insert_exp (now + 7 * 24 * 60 * 60) now'
    (dictInsert "iat" (.num now) data) hemail
  have hdecS : jwtDecode (create_access_token data none s now) s.JWT_SECRET
      [s.JWT_ALGORITHM] now'
        = .ok (create_access_token data none s now).payload := by
    rw [create_access_token_none_eq]
    exact jwtDecode_mk_ok _ _ _ _ hexpS
  have hdecE : jwtDecode (create_email_token data s now) s.JWT_SECRET
      [s.JWT_ALGORITHM] now' = .ok (create_email_token data s now).payload := by
    rw [create_email_token_eq]
    exact jwtDecode_mk_ok _ _ _ _ hexpE
  refine ⟨hdecS, ?_, hdecE, ?_, ?_, ?_⟩
  · rw [create_access_token_none_eq]
    show dictGet k (dictInsert "exp" _ data) = dictGet k data
    rw [dictGet_dictInsert, if_neg hk']
  · rw [create_email_token_eq]
    show dictGet k (dictInsert "exp" _ (dictInsert "iat" _ data))
      = dictGet k data
    rw [dictGet_dictInsert, if_neg hk', dictGet_dictInsert, if_neg hki']
  · simp only [get_email_from_token, create_email_token_eq,
      jwtDecode_mk_ok _ _ _ _ hexpE]
    rw [dictGet_dictInsert, if_neg (show ¬ "exp" = "sub" by decide),
      dictGet_dictInsert, if_neg (show ¬ "iat" = "sub" by decide), hsub]
  · simp only [get_password_from_token, create_access_token_none_eq,
      jwtDecode_mk_ok _ _ _ _ hexpS]
    rw [dictGet_dictInsert, if_neg (show ¬ "exp" = "password" by decide), hpw]

/-- Witness for the amended C3 at concrete claims, settings and times. -/
theorem token_roundtrip_modulo_issuer_fields_witness :
    jwtDecode (create_access_token
        [("sub", .str "e@x"), ("password", .str "npw")] none sTest 0)
        sTest.JWT_SECRET [sTest.JWT_ALGORITHM] 1
      = .ok (create_access_token
          [("sub", .str "e@x"), ("password", .str "npw")] none sTest 0).payload
  ∧ dictGet "sub" (create_access_token
        [("sub", .str "e@x"), ("password", .str "npw")] none sTest 0).payload
      = dictGet "sub" [("sub", Claim.str "e@x"), ("password", Claim.str "npw")]
  ∧ jwtDecode (create_email_token
        [("sub", .str "e@x"), ("password", .str "npw")] sTest 0)
        sTest.JWT_SECRET [sTest.JWT_ALGORITHM] 1
      = .ok (create_email_token
          [("sub", .str "e@x"), ("password", .str "npw")] sTest 0).payload
  ∧ dictGet "sub" (create_email_token
        [("sub", .str "e@x"), ("password", .str "npw")] sTest 0).payload
      = dictGet "sub" [("sub", Claim.str "e@x"), ("password", Claim.str "npw")]
  ∧ get_email_from_token (create_email_token
        [("sub", .str "e@x"), ("password", .str "npw")] sTest 0) sTest 1
      = .ok (.str "e@x")
  ∧ get_password_from_token (create_access_token
        [("sub", .str "e@x"), ("password", .str "npw")] none sTest 0) sTest 1
      = .ok (.str "npw") :=
  token_roundtrip_modulo_issuer_fields
    [("sub", .str "e@x"), ("password", .str "npw")] sTest 0 1 "sub"
    (.str "e@x") (.str "npw") (by decide) (by decide) (by decide) (by decide)
    (by decide) (by decide)

/-! ## C6 amended: missing sub versus null sub -/

/-- C6 (amended): on a validly signed, unexpired token, a payload whose
sub claim is null is rejected with the 401 credentials exception, but a
payload with no sub key at all escapes as an uncaught KeyError — not as
the credentials rejection. -/
theorem sub_claim_missing_or_null
    (p1 p2 : Payload) (db : DB) (s : Settings) (now : Int)
    (h1exp : payloadExpired p1 now = false)
    (h1 : dictGet "sub" p1 = none)
    (h2exp : payloadExpired p2 now = false)
    (h2 : dictGet "sub" p2 = some .null) :
    get_current_user ⟨p1, s.JWT_SECRET, s.JWT_ALGORITHM⟩ db s now
      = .error (.keyError "sub")
  ∧ get_current_user ⟨p2, s.JWT_SECRET, s.JWT_ALGORITHM⟩ db s now
      = .error (.http 401 COULD_NOT_VALIDATE_CREDENTIALS) := by
  constructor
  · simp only [get_current_user, jwtDecode_mk_ok _ _ _ _ h1exp, h1]
  · simp only [get_current_user, jwtDecode_mk_ok _ _ _ _ h2exp, h2]
    simp

/-- Witness for the amended C6: concrete no-sub and null-sub tokens. -/
theorem sub_claim_missing_or_null_witness :
    get_current_user ⟨[("foo", .str "bar")], sTest.JWT_SECRET,
        sTest.JWT_ALGORITHM⟩ dbShared sTest 0
      = .error (.keyError "sub")
  ∧ get_current_user ⟨[("sub", .null)], sTest.JWT_SECRET,
        sTest.JWT_ALGORITHM⟩ dbShared sTest 0
      = .error (.http 401 COULD_NOT_VALIDATE_CREDENTIALS) :=
  sub_claim_missing_or_null [("foo", .str "bar")] [("sub", .null)]
    dbShared sTest 0 (by decide) (by decide) (by decide) (by decide)

/-! ## C9: no purpose separation between the three token kinds -/

/-- C9: all issuers sign with the same secret and algorithm and no
verifier checks a purpose marker, so an email-verification token whose
sub names an existing user is accepted by the session guard, and a
session token is accepted by the email and password readers whenever it
carries the fields they extract. -/
theorem token_purpose_confusion
    (data data2 : Payload) (s : Settings) (now now' : Int)
    (uname : String) (u : User) (db : DB) (v pw : Claim)
    (hsub : dictGet "sub" data = some (.str uname))
    (hfind : db.users.find? (claimMatchesUsername (.str uname)) = some u)
    (h7 : now' ≤ now + 7 * 24 * 60 * 60)
    (hsub2 : dictGet "sub" data2 = some v)
    (hpw2 : dictGet "password" data2 = some pw)
    (hE : now' ≤ now + s.JWT_EXPIRATION_SECONDS) :
    get_current_user (create_email_token data s now) db s now' = .ok u
  ∧ get_email_from_token (create_access_token data2 none s now) s now'
      = .ok v
  ∧ get_password_from_token (create_access_token data2 none s now) s now'
      = .ok pw := by
  have hexpS := payloadExpired_insert_exp (now + s.JWT_EXPIRATION_SECONDS)
    now' data2 hE
  have hexpE := payloadExpired_insert_exp (now + 7 * 24 * 60 * 60) now'
    (dictInsert "iat" (.num now) data) h7
  refine ⟨?_, ?_, ?_⟩
  · simp only [get_current_user, create_email_token_eq,
      jwtDecode_mk_ok _ _ _ _ hexpE]
    rw [dictGet_dictInsert, if_neg (show ¬ "exp" = "sub" by decide),
      dictGet_dictInsert, if_neg (show ¬ "iat" = "sub" by decide), hsub]
    simp [hfind]
  · simp only [get_email_from_token, create_access_token_none_eq,
      jwtDecode_mk_ok _ _ _ _ hexpS]
    rw [dictGet_dictInsert, if_neg (show ¬ "exp" = "sub" by decide), hsub2]
  · simp only [get_password_from_token, create_access_token_none_eq,
      jwtDecode_mk_ok _ _ _ _ hexpS]
    rw [dictGet_dictInsert, if_neg (show ¬ "exp" = "password" by decide),
      hpw2]

/-- Witness for C9: an email token for alice passes the session guard;
a session token is read back by both token readers. -/
theorem token_purpose_confusion_witness :
    get_current_user (create_email_token [("sub", .str "alice")] sTest 0)
        dbShared sTest 1
      = .ok aliceU
  ∧ get_email_from_token (create_access_token
        [("sub", .str "e@x"), ("password", .str "npw")] none sTest 0) sTest 1
      = .ok (.str "e@x")
  ∧ get_password_from_token (create_access_token
        [("sub", .str "e@x"), ("password", .str "npw")] none sTest 0) sTest 1
      = .ok (.str "npw") :=
  token_purpose_confusion [("sub", .str "alice")]
    [("sub", .str "e@x"), ("password", .str "npw")] sTest 0 1 "alice" aliceU
    dbShared (.str "e@x") (.str "npw") (by decide) (by decide) (by decide)
    (by decide) (by decide) (by decide)

/-- A successful user creation stores exactly the row userOfCreate builds,
and that row is in the new state. -/
theorem repo_create_user_ok_fields (body : UserCreate) (av : Option String)
    (db : DB) (u : User) (db1 : DB)
    (h : repo_create_user body av db = .ok (u, db1)) :
    u = userOfCreate body av db.nextUserId ∧ u ∈ db1.users := by
  unfold repo_create_user at h
  split at h
  · exact absurd h (by simp)
  · simp only [Except.ok.injEq, Prod.mk.injEq] at h
    obtain ⟨hu, hdb⟩ := h
    refine ⟨hu.symm, ?_⟩
    rw [← hdb, ← hu]
    simp

/-! ## C10: the password is stored verbatim -/

/-- C10: whenever user creation succeeds — through the repository directly
or through the service (whatever the avatar lookup returned) — the stored
user's hashed_password field is exactly the caller-supplied password
string, and the user row is in the new state: no hashing happens anywhere
in this path. -/
theorem password_stored_verbatim
    (body : UserCreate) (avatar : Option String) (db : DB)
    (g : GravatarResult) (u u' : User) (db1 db2 : DB)
    (h1 : repo_create_user body avatar db = .ok (u, db1))
    (h2 : service_create_user g body db = .ok (u', db2)) :
    u.hashed_password = body.password ∧ u ∈ db1.users
  ∧ u'.hashed_password = body.password := by
  obtain ⟨hu, hmem⟩ := repo_create_user_ok_fields _ _ _ _ _ h1
  have h2' : ∃ av, repo_create_user body av db = .ok (u', db2) := by
    cases g with
    | ok url => exact ⟨some url, h2⟩
    | error e2 => exact ⟨none, h2⟩
  obtain ⟨av2, h2r⟩ := h2'
  obtain ⟨hu', _⟩ := repo_create_user_ok_fields _ _ _ _ _ h2r
  exact ⟨by rw [hu]; rfl, hmem, by rw [hu']; rfl⟩

/-- Witness for C10: creating carol stores her plaintext password in
hashed_password. -/
theorem password_stored_verbatim_witness :
    (userOfCreate bodyCarol none 3).hashed_password = bodyCarol.password
  ∧ userOfCreate bodyCarol none 3 ∈
      ({ contacts := [cShared], users := [aliceU, bobAdmin,
          userOfCreate bodyCarol none 3], nextContactId := 21,
          nextUserId := 4 } : DB).users
  ∧ (userOfCreate bodyCarol none 3).hashed_password = bodyCarol.password :=
  password_stored_verbatim bodyCarol none dbShared (.error "boom")
    (userOfCreate bodyCarol none 3) (userOfCreate bodyCarol none 3)
    { contacts := [cShared], users := [aliceU, bobAdmin,
        userOfCreate bodyCarol none 3], nextContactId := 21, nextUserId := 4 }
    { contacts := [cShared], users := [aliceU, bobAdmin,
        userOfCreate bodyCarol none 3], nextContactId := 21, nextUserId := 4 }
    (by decide) (by decide)

/-! ## C4 amended: no argument validation on the query operations -/

/-- C4 (amended): neither query operation validates days, skip or limit —
no InvalidArgument-style failure exists.  The birthday query completes
normally for every days value (negative included); the search completes
normally for any non-negative skip/limit, returns an empty page for
limit = 0, and a negative skip reaches the storage layer and fails there
as a storage error, not as an InvalidArgument rejection. -/
theorem query_args_not_validated
    (days skip limit skipBad : Int) (fn ln em : String) (u : User) (db : DB)
    (today : PDate)
    (hs : 0 ≤ skip) (hl : 0 ≤ limit) (hbad : skipBad < 0) :
    exceptOk (get_upcoming_birthdays days u db today) = true
  ∧ exceptOk (get_contacts fn ln em skip limit u db) = true
  ∧ get_contacts fn ln em skip 0 u db = .ok []
  ∧ get_contacts fn ln em skipBad limit u db = .error .storageError := by
  refine ⟨rfl, ?_, ?_, ?_⟩
  · have h : ¬ (skip < 0 ∨ limit < 0) := by omega
    simp [get_contacts, h, exceptOk]
  · have h : ¬ (skip < 0 ∨ (0 : Int) < 0) := by omega
    simp [get_contacts, h, hs]
  · simp [get_contacts, hbad]

/-- Witness for the amended C4 at days = -1, limit = 0 and skip = -1. -/
theorem query_args_not_validated_witness :
    exceptOk (get_upcoming_birthdays (-1) aliceU dbBday ⟨2024, 6, 15⟩) = true
  ∧ exceptOk (get_contacts "" "" "" 0 10 aliceU dbBday) = true
  ∧ get_contacts "" "" "" 0 0 aliceU dbBday = .ok []
  ∧ get_contacts "" "" "" (-1) 10 aliceU dbBday = .error .storageError :=
  query_args_not_validated (-1) 0 10 (-1) "" "" "" aliceU dbBday
    ⟨2024, 6, 15⟩ (by decide) (by decide) (by decide)

/-! ## C8 amended: which mail and avatar failures are suppressed -/

/-- C8 (amended): only ConnectionErrors failures of the mail transport are
suppressed by the two send functions; any other mail exception propagates.
Avatar-resolution failures of every kind are suppressed: user creation
proceeds with avatar None, and whether it succeeds does not depend on the
gravatar outcome. -/
theorem mail_and_avatar_failure_handling
    (msg : String) (g g' : GravatarResult) (body : UserCreate) (db : DB)
    (e : String) (u : User) (db' : DB)
    (hga : service_create_user (.error e) body db = .ok (u, db')) :
    send_confirm_email (.error .connectionErrors) = .ok ()
  ∧ send_reset_password_email (.error .connectionErrors) = .ok ()
  ∧ send_confirm_email (.error (.other msg)) = .error (.other msg)
  ∧ exceptOk (service_create_user g body db)
      = exceptOk (service_create_user g' body db)
  ∧ u.avatar = none := by
  refine ⟨rfl, rfl, rfl, ?_, ?_⟩
  · cases hany : db.users.any
      (fun u0 => u0.username = body.username || u0.email = body.email) with
    | true =>
      cases g <;> cases g' <;>
        simp [service_create_user, repo_create_user, hany, exceptOk]
    | false =>
      cases g <;> cases g' <;>
        simp [service_create_user, repo_create_user, hany, exceptOk]
  · have hga' : repo_create_user body none db = .ok (u, db') := hga
    obtain ⟨hu, _⟩ := repo_create_user_ok_fields _ _ _ _ _ hga'
    rw [hu]; rfl

/-- Witness for the amended C8 at a concrete registration. -/
theorem mail_and_avatar_failure_handling_witness :
    send_confirm_email (.error .connectionErrors) = .ok ()
  ∧ send_reset_password_email (.error .connectionErrors) = .ok ()
  ∧ send_confirm_email (.error (.other "TemplateX"))
      = .error (.other "TemplateX")
  ∧ exceptOk (service_create_user (.ok "http://avatar") bodyCarol dbShared)
      = exceptOk (service_create_user (.error "boom") bodyCarol dbShared)
  ∧ (userOfCreate bodyCarol none 3).avatar = none :=
  mail_and_avatar_failure_handling "TemplateX" (.ok "http://avatar")
    (.error "boom") bodyCarol dbShared "boom" (userOfCreate bodyCarol none 3)
    { contacts := [cShared], users := [aliceU, bobAdmin,
        userOfCreate bodyCarol none 3], nextContactId := 21, nextUserId := 4 }
    (by decide)

/-! ## C5 amended: per-owner conflict check, table-wide constraint -/

/-- C5 (amended): creating a contact whose email already exists among the
same owner's contacts fails with the 400 duplicate error and stores
nothing; but an identical email under a different owner does not succeed
either — it passes the per-owner service check and then violates the
table-wide unique constraint on Contact.email, failing with an integrity
error. -/
theorem contact_conflict_per_owner_and_schema
    (body : ContactModel) (u v : User) (db : DB) (c : Contact)
    (hc : c ∈ db.contacts) (hmine : c.user_id = u.id)
    (hemail : c.email = body.email)
    (hother : is_contact_exists body.email body.phone_number v db = false) :
    service_create_contact body u db
      = .error (.http 400 ("Contact with '" ++ body.email ++ "' email or '"
          ++ body.phone_number ++ "' phone number already exists."))
  ∧ service_create_contact body v db = .error .integrityError := by
  have hex : is_contact_exists body.email body.phone_number u db = true := by
    unfold is_contact_exists
    rw [List.any_eq_true]
    exact ⟨c, hc, by simp [hmine, hemail]⟩
  have hglob : db.contacts.any
      (fun c0 => c0.email = body.email || c0.phone_number = body.phone_number)
      = true := by
    rw [List.any_eq_true]
    exact ⟨c, hc, by simp [hemail]⟩
  constructor
  · simp [service_create_contact, hex]
  · simp [service_create_contact, hother, repo_create_contact, hglob]

/-- Witness for the amended C5: bodyShared reuses cShared's email; the
same owner gets the 400 duplicate error, the other owner the integrity
error. -/
theorem contact_conflict_per_owner_and_schema_witness :
    service_create_contact bodyShared aliceU dbShared
      = .error (.http 400 ("Contact with '" ++ bodyShared.email
          ++ "' email or '" ++ bodyShared.phone_number
          ++ "' phone number already exists."))
  ∧ service_create_contact bodyShared bobAdmin dbShared
      = .error .integrityError :=
  contact_conflict_per_owner_and_schema bodyShared aliceU bobAdmin dbShared
    cShared (by decide) (by decide) (by decide) (by decide)

/-! ## List lemmas for the ownership-scoping claim -/

/-- Membership through insertByDay. -/
theorem mem_insertByDay (c a : Contact) (l : List Contact) :
    c ∈ insertByDay a l ↔ c = a ∨ c ∈ l := by
  induction l with
  | nil => simp [insertByDay]
  | cons d t ih =>
    simp only [insertByDay]
    split
    · simp [List.mem_cons]
    · simp only [List.mem_cons, ih]
      tauto

/-- Membership through sortByDay. -/
theorem mem_sortByDay (c : Contact) (l : List Contact) :
    c ∈ sortByDay l ↔ c ∈ l := by
  induction l with
  | nil => simp [sortByDay]
  | cons a t ih => simp [sortByDay, mem_insertByDay, ih]

/-- Replacing the row with an id no list element carries is a no-op. -/
theorem map_update_id_of_ne (c' : Contact) (i : Nat) (t : List Contact)
    (h : ∀ x ∈ t, ¬ x.id = i) :
    t.map (fun c0 => if c0.id = i then c' else c0) = t := by
  induction t with
  | nil => rfl
  | cons a s ih =>
    simp only [List.map_cons]
    rw [if_neg (h a (List.mem_cons_self a s))]
    rw [ih (fun x hx => h x (List.mem_cons_of_mem a hx))]

/-- Filtering out an id no list element carries is a no-op. -/
theorem filter_id_ne_of_ne (i : Nat) (t : List Contact)
    (h : ∀ x ∈ t, ¬ x.id = i) :
    t.filter (fun c0 => ¬ c0.id = i) = t :=
  List.filter_eq_self.mpr (fun a ha => by simp [h a ha])

/-- An UPDATE of one of the calling owner's rows (identified by primary
key, the ids being unique) leaves every other owner's rows untouched. -/
theorem filter_other_owner_map_update (uid : Nat) (c c' : Contact)
    (hcu : c.user_id = uid) (hc'u : c'.user_id = uid) (l : List Contact)
    (hnd : (l.map Contact.id).Nodup) (hmem : c ∈ l) :
    (l.map (fun c0 => if c0.id = c.id then c' else c0)).filter
        (fun c0 => ¬ c0.user_id = uid)
      = l.filter (fun c0 => ¬ c0.user_id = uid) := by
  induction l with
  | nil => simp at hmem
  | cons a t ih =>
    rw [List.map_cons, List.nodup_cons] at hnd
    obtain ⟨hnd1, hnd2⟩ := hnd
    rcases List.mem_cons.mp hmem with hca | hmem'
    · subst hca
      have htail : t.map (fun c0 => if c0.id = c.id then c' else c0) = t := by
        apply map_update_id_of_ne
        intro x hx hxi
        exact hnd1 (hxi ▸ List.mem_map_of_mem Contact.id hx)
      simp only [List.map_cons]
      rw [if_pos trivial, htail]
      rw [List.filter_cons, List.filter_cons]
      rw [if_neg (by simp [hc'u]), if_neg (by simp [hcu])]
    · have hane : ¬ a.id = c.id := fun hh =>
        hnd1 (by rw [hh]; exact List.mem_map_of_mem Contact.id hmem')
      simp only [List.map_cons]
      rw [if_neg hane]
      rw [List.filter_cons, List.filter_cons, ih hnd2 hmem']

/-- A DELETE of one of the calling owner's rows (by primary key, the ids
being unique) leaves every other owner's rows untouched. -/
theorem filter_other_owner_after_delete (uid : Nat) (c : Contact)
    (hcu : c.user_id = uid) (l : List Contact)
    (hnd : (l.map Contact.id).Nodup) (hmem : c ∈ l) :
    (l.filter (fun c0 => ¬ c0.id = c.id)).filter
        (fun c0 => ¬ c0.user_id = uid)
      = l.filter (fun c0 => ¬ c0.user_id = uid) := by
  induction l with
  | nil => simp at hmem
  | cons a t ih =>
    rw [List.map_cons, List.nodup_cons] at hnd
    obtain ⟨hnd1, hnd2⟩ := hnd
    rcases List.mem_cons.mp hmem with hca | hmem'
    · subst hca
      rw [List.filter_cons]
      rw [if_neg (by simp)]
      have hinner : t.filter (fun c0 => ¬ c0.id = c.id) = t := by
        apply filter_id_ne_of_ne
        intro x hx hxi
        exact hnd1 (hxi ▸ List.mem_map_of_mem Contact.id hx)
      rw [hinner]
      rw [List.filter_cons]
      rw [if_neg (by simp [hcu])]
    · have hane : ¬ a.id = c.id := fun hh =>
        hnd1 (by rw [hh]; exact List.mem_map_of_mem Contact.id hmem')
      rw [List.filter_cons]
      rw [if_pos (by simp [hane])]
      rw [List.filter_cons, List.filter_cons, ih hnd2 hmem']

/-- repo_update_contact when the owner has no such contact. -/
theorem repo_update_contact_none (cid : Nat) (body : ContactModel)
    (u : User) (db : DB) (hf : get_contact_by_id cid u db = none) :
    repo_update_contact cid body u db = .ok (none, db) := by
  unfold repo_update_contact
  rw [hf]

/-- repo_update_contact when the owner's contact is found. -/
theorem repo_update_contact_some (cid : Nat) (body : ContactModel)
    (u : User) (db : DB) (c : Contact)
    (hf : get_contact_by_id cid u db = some c) :
    repo_update_contact cid body u db
      = if db.contacts.any (fun c0 => ¬ c0.id = c.id &&
            (c0.email = body.email || c0.phone_number = body.phone_number))
        then .error .integrityError
        else .ok (some (applyModel body c),
          { db with contacts := db.contacts.map (fun c0 =>
              if c0.id = c.id then applyModel body c else c0) }) := by
  unfold repo_update_contact
  rw [hf]

/-- repo_remove_contact when the owner has no such contact. -/
theorem repo_remove_contact_none (cid : Nat) (u : User) (db : DB)
    (hf : get_contact_by_id cid u db = none) :
    repo_remove_contact cid u db = (none, db) := by
  unfold repo_remove_contact
  rw [hf]

/-- repo_remove_contact when the owner's contact is found. -/
theorem repo_remove_contact_some (cid : Nat) (u : User) (db : DB)
    (c : Contact) (hf : get_contact_by_id cid u db = some c) :
    repo_remove_contact cid u db
      = (some c,
         { db with contacts :=
             db.contacts.filter (fun c0 => ¬ c0.id = c.id) }) := by
  unfold repo_remove_contact
  rw [hf]

/-- A found contact belongs to the calling owner. -/
theorem get_contact_by_id_owner (cid : Nat) (u : User) (db : DB)
    (c : Contact) (hf : get_contact_by_id cid u db = some c) :
    c.user_id = u.id := by
  have hp := List.find?_some hf
  simp only [Bool.and_eq_true, decide_eq_true_eq] at hp
  exact hp.2

/-! ## C2: every exposed contact operation is owner-scoped -/

/-- C2: with unique primary keys, every exposed contact operation reads
and mutates only the calling owner's rows: search results, the by-id
lookup, the created contact, the update result and the remove result all
belong to the caller, and create/update/remove leave the sublist of every
other owner's contacts exactly as it was. -/
theorem contact_operations_owner_scoped
    (fn ln em : String) (skip limit : Int) (cid : Nat) (body : ContactModel)
    (days : Int) (today : PDate) (u : User) (db : DB)
    (l1 : List Contact) (oc : Option Contact) (c3 : Contact) (db3 : DB)
    (res4 : Option Contact) (db4 : DB) (l6 : List Contact)
    (hids : (db.contacts.map Contact.id).Nodup)
    (h1 : get_contacts fn ln em skip limit u db = .ok l1)
    (h2 : get_contact_by_id cid u db = oc)
    (h3 : repo_create_contact body u db = .ok (c3, db3))
    (h4 : repo_update_contact cid body u db = .ok (res4, db4))
    (h6 : get_upcoming_birthdays days u db today = .ok l6) :
    l1.all (fun c => c.user_id = u.id) = true
  ∧ optionAll (fun c => c.user_id = u.id) oc = true
  ∧ c3.user_id = u.id
  ∧ db3.contacts.filter (fun c0 => ¬ c0.user_id = u.id)
      = db.contacts.filter (fun c0 => ¬ c0.user_id = u.id)
  ∧ optionAll (fun c => c.user_id = u.id) res4 = true
  ∧ db4.contacts.filter (fun c0 => ¬ c0.user_id = u.id)
      = db.contacts.filter (fun c0 => ¬ c0.user_id = u.id)
  ∧ optionAll (fun c => c.user_id = u.id) (repo_remove_contact cid u db).1
      = true
  ∧ (repo_remove_contact cid u db).2.contacts.filter
        (fun c0 => ¬ c0.user_id = u.id)
      = db.contacts.filter (fun c0 => ¬ c0.user_id = u.id)
  ∧ l6.all (fun c => c.user_id = u.id) = true := by
  refine ⟨?_, ?_, ?_, ?_, ?_, ?_, ?_, ?_, ?_⟩
  · -- search results belong to the caller
    unfold get_contacts at h1
    split at h1
    · exact absurd h1 (by simp)
    · simp only [Except.ok.injEq] at h1
      subst h1
      rw [List.all_eq_true]
      intro x hx
      have hx1 := List.drop_subset _ _ (List.take_subset _ _ hx)
      have hp := (List.mem_filter.mp hx1).2
      simp only [contactMatches, Bool.and_eq_true] at hp
      exact hp.1.1.1
  · -- the by-id lookup belongs to the caller
    subst h2
    unfold get_contact_by_id
    cases hf : db.contacts.find? (fun c => c.id = cid && c.user_id = u.id)
    case none => rfl
    case some c =>
      show (fun c => decide (c.user_id = u.id)) c = true
      simp only [decide_eq_true_eq]
      exact get_contact_by_id_owner cid u db c hf
  · -- the created contact belongs to the caller
    unfold repo_create_contact at h3
    split at h3
    · exact absurd h3 (by simp)
    · simp only [Except.ok.injEq, Prod.mk.injEq] at h3
      rw [← h3.1]
      rfl
  · -- create leaves other owners' rows unchanged
    unfold repo_create_contact at h3
    split at h3
    · exact absurd h3 (by simp)
    · simp only [Except.ok.injEq, Prod.mk.injEq] at h3
      rw [← h3.2]
      simp [List.filter_append, contactOfModel]
  · -- the update result belongs to the caller
    cases hf : get_contact_by_id cid u db
    case none =>
      rw [repo_update_contact_none cid body u db hf] at h4
      simp only [Except.ok.injEq, Prod.mk.injEq] at h4
      rw [← h4.1]
      rfl
    case some c =>
      rw [repo_update_contact_some cid body u db c hf] at h4
      split at h4
      · exact absurd h4 (by simp)
      · simp only [Except.ok.injEq, Prod.mk.injEq] at h4
        rw [← h4.1]
        show (fun x => decide (x.user_id = u.id)) (applyModel body c) = true
        simp only [applyModel, decide_eq_true_eq]
        exact get_contact_by_id_owner cid u db c hf
  · -- update leaves other owners' rows unchanged
    cases hf : get_contact_by_id cid u db
    case none =>
      rw [repo_update_contact_none cid body u db hf] at h4
      simp only [Except.ok.injEq, Prod.mk.injEq] at h4
      rw [← h4.2]
    case some c =>
      rw [repo_update_contact_some cid body u db c hf] at h4
      split at h4
      · exact absurd h4 (by simp)
      · simp only [Except.ok.injEq, Prod.mk.injEq] at h4
        rw [← h4.2]
        exact filter_other_owner_map_update u.id c (applyModel body c)
          (get_contact_by_id_owner cid u db c hf)
          (get_contact_by_id_owner cid u db c hf) db.contacts hids
          (List.mem_of_find?_eq_some hf)
  · -- the remove result belongs to the caller
    cases hf : get_contact_by_id cid u db
    case none =>
      rw [repo_remove_contact_none cid u db hf]
      rfl
    case some c =>
      rw [repo_remove_contact_some cid u db c hf]
      show (fun x => decide (x.user_id = u.id)) c = true
      simp only [decide_eq_true_eq]
      exact get_contact_by_id_owner cid u db c hf
  · -- remove leaves other owners' rows unchanged
    cases hf : get_contact_by_id cid u db
    case none =>
      rw [repo_remove_contact_none cid u db hf]
    case some c =>
      rw [repo_remove_contact_some cid u db c hf]
      exact filter_other_owner_after_delete u.id c
        (get_contact_by_id_owner cid u db c hf) db.contacts hids
        (List.mem_of_find?_eq_some hf)
  · -- birthday results belong to the caller
    unfold get_upcoming_birthdays at h6
    simp only [Except.ok.injEq] at h6
    subst h6
    rw [List.all_eq_true]
    intro x hx
    have hx1 := (mem_sortByDay x _).mp hx
    have hp := (List.mem_filter.mp hx1).2
    simp only [Bool.and_eq_true] at hp
    exact hp.1

/-- Witness for C2: in the two-owner database every operation invoked as
alice touches only alice's rows and leaves bob's untouched. -/
theorem contact_operations_owner_scoped_witness :
    [cAlice1].all (fun c => c.user_id = aliceU.id) = true
  ∧ optionAll (fun c => c.user_id = aliceU.id) (some cAlice1) = true
  ∧ c3W.user_id = aliceU.id
  ∧ db3W.contacts.filter (fun c0 => ¬ c0.user_id = aliceU.id)
      = dbTwo.contacts.filter (fun c0 => ¬ c0.user_id = aliceU.id)
  ∧ optionAll (fun c => c.user_id = aliceU.id) res4W = true
  ∧ db4W.contacts.filter (fun c0 => ¬ c0.user_id = aliceU.id)
      = dbTwo.contacts.filter (fun c0 => ¬ c0.user_id = aliceU.id)
  ∧ optionAll (fun c => c.user_id = aliceU.id)
      (repo_remove_contact 30 aliceU dbTwo).1 = true
  ∧ (repo_remove_contact 30 aliceU dbTwo).2.contacts.filter
        (fun c0 => ¬ c0.user_id = aliceU.id)
      = dbTwo.contacts.filter (fun c0 => ¬ c0.user_id = aliceU.id)
  ∧ List.all ([] : List Contact) (fun c => c.user_id = aliceU.id)
      = true :=
  contact_operations_owner_scoped "" "" "" 0 10 30 bodyNew 7 ⟨2024, 12, 28⟩
    aliceU dbTwo [cAlice1] (some cAlice1) c3W db3W res4W db4W []
    (by decide) (by decide) (by decide) (by decide) (by decide) (by decide)
